import Mathlib

/-!
Verification of the EyeTune vision trackers.

This file is a shallow embedding of the stateful tracker classes of
`src/Vision/trackers.py` (with the constants of `src/Vision/config.py`)
and of the pure geometry helper `calculate_eye_aspect_ratio` of
`src/src/utils.py`. Times, EAR values and brightness values are modelled
as rationals (`ℚ`); Python lists become Lean lists; Python `None` becomes
`Option.none`. Each tracker method that mutates `self` is embedded as a
function from the tracker state (plus the per-call inputs, including the
value of `time.time()` observed during the call) to the new tracker state,
together with the method's return value and any actuator invocations.
-/

set_option maxRecDepth 8000

namespace EyeTune

/-! ## Constants from `src/Vision/config.py` -/

def EAR_ZOOM_IN_THRES : ℚ := 23/100

def EAR_ZOOM_OUT_THRES : ℚ := 28/100

def EAR_BLINK_THRES : ℚ := 20/100

def BRIGHTNESS_THRESHOLD : ℚ := 90

def DISTANCE_CLOSE_THRESHOLD : ℚ := 35

def DISTANCE_FAR_THRESHOLD : ℚ := 40

def FOCAL_LENGTH : ℚ := 600

def IRIS_DIAMETER_CM : ℚ := 117/100

def MAX_BLINK_HISTORY : ℕ := 60

/-! ## Landmarks

A MediaPipe landmark as consumed by the trackers: normalized `x`/`y`
coordinates. Only the fields the embedded code reads are modelled. -/

structure Landmark where
  x : ℚ
  y : ℚ
deriving DecidableEq, Repr

/-! ## BlinkTracker (`src/Vision/trackers.py`, lines 22-76)

State fields of `BlinkTracker.__init__`. `REFRACTORY_SEC` is set to the
constant `0.27` in `__init__` and never reassigned, so it is modelled as a
global constant. `__init__` reads `time.time()` once for
`last_blink_time`; that construction-time value is the `t0` argument of
`BlinkTracker.init`. -/

def REFRACTORY_SEC : ℚ := 27/100

structure BlinkTracker where
  counter : ℕ
  is_currently_blinking : Bool
  last_blink_time : ℚ
  recent_times : List ℚ
deriving DecidableEq, Repr

def BlinkTracker.init (t0 : ℚ) : BlinkTracker :=
  { counter := 0
    is_currently_blinking := false
    last_blink_time := t0
    recent_times := [] }

/-- Lines 63-76 of `BlinkTracker.detect`: the blink state machine, taking
the already-computed `avg_ear` (the mean of the two
`calculate_eye_aspect_ratio` results of lines 59-61) and the value `now`
read from `time.time()` in the call. The early return of line 56 (fewer
than 400 landmarks) leaves the state untouched and so corresponds to not
calling this step at all. -/
def BlinkTracker.detect (s : BlinkTracker) (avg_ear now : ℚ) : BlinkTracker :=
  let is_blinking : Prop := avg_ear < EAR_BLINK_THRES
  if is_blinking ∧ ¬ s.is_currently_blinking then
    if REFRACTORY_SEC ≤ now - s.last_blink_time then
      let rt := s.recent_times ++ [now]
      { counter := s.counter + 1
        is_currently_blinking := true
        last_blink_time := now
        recent_times := if MAX_BLINK_HISTORY < rt.length then rt.tail else rt }
    else
      { s with is_currently_blinking := true }
  else if (¬ is_blinking) ∧ s.is_currently_blinking then
    { s with is_currently_blinking := false }
  else
    s

/-- Fold a trace of `(avg_ear, now)` call inputs through the blink state
machine. -/
def BlinkTracker.run (s : BlinkTracker) (trace : List (ℚ × ℚ)) : BlinkTracker :=
  trace.foldl (fun st p => st.detect p.1 p.2) s

/-- Invariant maintained by `BlinkTracker.detect`: the recorded blink
timestamps are pairwise separated by at least the refractory period, and
every recorded timestamp is at most `last_blink_time`. -/
def BlinkInv (s : BlinkTracker) : Prop :=
  s.recent_times.Pairwise (fun a b => a + REFRACTORY_SEC ≤ b) ∧
    ∀ t ∈ s.recent_times, t ≤ s.last_blink_time

lemma blinkInv_init (t0 : ℚ) : BlinkInv (BlinkTracker.init t0) := by
  constructor
  · simp [BlinkTracker.init]
  · intro t ht
    simp [BlinkTracker.init] at ht

lemma blinkInv_detect {s : BlinkTracker} (h : BlinkInv s) (e now : ℚ) :
    BlinkInv (s.detect e now) := by
  obtain ⟨hp, hle⟩ := h
  unfold BlinkTracker.detect
  by_cases hb : e < EAR_BLINK_THRES ∧ ¬ s.is_currently_blinking
  · rw [if_pos hb]
    by_cases hr : REFRACTORY_SEC ≤ now - s.last_blink_time
    · rw [if_pos hr]
      have hlast : ∀ t ∈ s.recent_times, t + REFRACTORY_SEC ≤ now := by
        intro t ht
        have h1 : t ≤ s.last_blink_time := hle t ht
        have h2 : s.last_blink_time + REFRACTORY_SEC ≤ now := by linarith
        linarith
      have hp' : (s.recent_times ++ [now]).Pairwise
          (fun a b => a + REFRACTORY_SEC ≤ b) := by
        rw [List.pairwise_append]
        refine ⟨hp, List.pairwise_singleton _ _, ?_⟩
        intro a ha b hb'
        simp at hb'
        subst hb'
        exact hlast a ha
      have hle' : ∀ t ∈ s.recent_times ++ [now], t ≤ now := by
        intro t ht
        rcases List.mem_append.mp ht with h' | h'
        · have := hlast t h'
          have hpos : (0 : ℚ) ≤ REFRACTORY_SEC := by norm_num [REFRACTORY_SEC]
          linarith
        · simp at h'
          subst h'
          exact le_refl _
      constructor
      · by_cases hlen : MAX_BLINK_HISTORY < (s.recent_times ++ [now]).length
        · simp only [if_pos hlen]
          exact hp'.tail
        · simp only [if_neg hlen]
          exact hp'
      · intro t ht
        by_cases hlen : MAX_BLINK_HISTORY < (s.recent_times ++ [now]).length
        · simp only [if_pos hlen] at ht
          exact hle' t (List.mem_of_mem_tail ht)
        · simp only [if_neg hlen] at ht
          exact hle' t ht
    · rw [if_neg hr]
      exact ⟨hp, hle⟩
  · rw [if_neg hb]
    by_cases hb2 : (¬ e < EAR_BLINK_THRES) ∧ s.is_currently_blinking
    · rw [if_pos hb2]
      exact ⟨hp, hle⟩
    · rw [if_neg hb2]
      exact ⟨hp, hle⟩

lemma blinkInv_run (t0 : ℚ) (trace : List (ℚ × ℚ)) :
    BlinkInv (BlinkTracker.run (BlinkTracker.init t0) trace) := by
  suffices h : ∀ s, BlinkInv s → BlinkInv (BlinkTracker.run s trace) from
    h _ (blinkInv_init t0)
  induction trace with
  | nil => intro s hs; exact hs
  | cons p rest ih =>
      intro s hs
      exact ih _ (blinkInv_detect hs p.1 p.2)

/-- C1: For every sequence of `BlinkTracker.detect` calls, the blink
counter increments (by exactly one) precisely on a false→true edge of
`avg_ear < EAR_BLINK_THRES` whose time satisfies
`now − last_blink_time ≥ REFRACTORY_SEC` (0.27 s), and is unchanged
otherwise; consequently any two accepted blink timestamps in
`recent_times` are separated by at least 0.27 s; and the concrete
scenario of a tracker constructed at time 0 seeing EAR dips below the
threshold at times 1.0 and 1.1 (0.1 s apart, with an intervening
eye-open frame) counts exactly one blink. -/
theorem C1_blink_refractory :
    (∀ s : BlinkTracker, ∀ e now : ℚ,
        (s.detect e now).counter =
          if e < EAR_BLINK_THRES ∧ s.is_currently_blinking = false ∧
              REFRACTORY_SEC ≤ now - s.last_blink_time
          then s.counter + 1 else s.counter) ∧
    (∀ t0 : ℚ, ∀ trace : List (ℚ × ℚ),
        (BlinkTracker.run (BlinkTracker.init t0) trace).recent_times.Pairwise
          (fun a b => a + REFRACTORY_SEC ≤ b)) ∧
    (BlinkTracker.run (BlinkTracker.init 0)
        [(1/10, 1), (3/10, 105/100), (1/10, 11/10)]).counter = 1 := by
  refine ⟨?_, ?_, by norm_num [BlinkTracker.run, List.foldl, BlinkTracker.detect,
    BlinkTracker.init, EAR_BLINK_THRES, REFRACTORY_SEC, MAX_BLINK_HISTORY]⟩
  · intro s e now
    unfold BlinkTracker.detect
    by_cases he : e < EAR_BLINK_THRES
    · by_cases hcb : s.is_currently_blinking
      · simp [he, hcb]
      · by_cases hr : REFRACTORY_SEC ≤ now - s.last_blink_time
        · simp [he, hcb, hr]
        · simp [he, hcb, hr]
    · by_cases hcb : s.is_currently_blinking
      · simp [he, hcb]
      · simp [he, hcb]
  · intro t0 trace
    exact (blinkInv_run t0 trace).1

/-- C10: `BlinkTracker.__init__` initializes `last_blink_time` to the
construction time `t0` (not to a "never blinked" sentinel), so a first
blink edge at any time `now < t0 + 0.27` is not counted and not added to
the history, even though no blink has previously been accepted; the
currently-blinking flag is still set. -/
theorem C10_blink_init_refractory (t0 now e : ℚ)
    (he : e < EAR_BLINK_THRES) (hnow : now < t0 + REFRACTORY_SEC) :
    ((BlinkTracker.init t0).detect e now).counter = 0 ∧
    ((BlinkTracker.init t0).detect e now).recent_times = [] ∧
    ((BlinkTracker.init t0).detect e now).is_currently_blinking = true := by
  have hr : ¬ REFRACTORY_SEC ≤ now - t0 := by
    intro h
    linarith
  unfold BlinkTracker.detect BlinkTracker.init
  simp [he, hr]

/-- Witness for C10 at `t0 = 0`, `now = 0.1`, `e = 0.1`. -/
theorem C10_blink_init_refractory_witness :
    ((1/10 : ℚ) < EAR_BLINK_THRES ∧ (1/10 : ℚ) < 0 + REFRACTORY_SEC) ∧
    (((BlinkTracker.init 0).detect (1/10) (1/10)).counter = 0 ∧
     ((BlinkTracker.init 0).detect (1/10) (1/10)).recent_times = [] ∧
     ((BlinkTracker.init 0).detect (1/10) (1/10)).is_currently_blinking = true) :=
  ⟨by constructor <;> norm_num [EAR_BLINK_THRES, REFRACTORY_SEC],
   C10_blink_init_refractory 0 (1/10) (1/10) (by norm_num [EAR_BLINK_THRES])
     (by norm_num [REFRACTORY_SEC])⟩

/-! ## AmbientLightTracker (`src/Vision/trackers.py`, lines 79-141)

`self.data` is the dict `{"ambient_light": ..., "timestamp": ...}`,
modelled by the two fields `data_light` and `data_timestamp`. An entry of
`state_changes` is a copy of `data` taken at append time, when both keys
are set, so it is modelled as a `LightState × ℚ` pair.
`AmbientLightTracker.process` computes `brightness` as the mean perceived
luminance `0.2126·R + 0.7152·G + 0.0722·B` of the raw frame (lines
101-105); the embedding takes that scalar directly, together with the
`time.time()` value `now` of the call, and returns the new state (the
Python method returns `brightness` itself). The fire-and-forget
`color_theme.auto_adjust` thread of lines 131-136 has no effect on
tracker state beyond `last_color_adjust_time`, which is kept. -/

inductive LightState
  | light
  | dark
deriving DecidableEq, Repr

structure AmbientLightTracker where
  data_light : LightState
  data_timestamp : Option ℚ
  last_known_state : Option LightState
  state_changes : List (LightState × ℚ)
  dark_start_time : Option ℚ
  last_color_adjust_time : ℚ
deriving DecidableEq, Repr

def color_adjust_interval : ℚ := 30

def AmbientLightTracker.init : AmbientLightTracker :=
  { data_light := .light
    data_timestamp := none
    last_known_state := none
    state_changes := []
    dark_start_time := none
    last_color_adjust_time := 0 }

/-- Lines 107-113 of `AmbientLightTracker.process`: the two-bound
hysteresis classification. `prev_state` is
`self.last_known_state or "light"`; while in `light` the state stays
`light` iff `brightness >= THRESHOLD - 5`, while in `dark` it becomes
`light` iff `brightness >= THRESHOLD + 5`. -/
def next_light_state (prev_state : LightState) (brightness : ℚ) : LightState :=
  match prev_state with
  | .light => if BRIGHTNESS_THRESHOLD - 5 ≤ brightness then .light else .dark
  | .dark => if BRIGHTNESS_THRESHOLD + 5 ≤ brightness then .light else .dark

def AmbientLightTracker.process (s : AmbientLightTracker) (brightness now : ℚ) :
    AmbientLightTracker :=
  let current_state : LightState :=
    next_light_state (s.last_known_state.getD .light) brightness
  let dark_start : Option ℚ :=
    match current_state, s.dark_start_time with
    | .dark, none => some now
    | .light, _ => none
    | .dark, some t => some t
  let adj : ℚ :=
    if color_adjust_interval < now - s.last_color_adjust_time then now
    else s.last_color_adjust_time
  match s.last_known_state with
  | none =>
      { data_light := current_state
        data_timestamp := some now
        last_known_state := some current_state
        state_changes := s.state_changes ++ [(current_state, now)]
        dark_start_time := dark_start
        last_color_adjust_time := adj }
  | some prev =>
      if current_state ≠ prev then
        { data_light := current_state
          data_timestamp := some now
          last_known_state := some current_state
          state_changes := s.state_changes ++ [(current_state, now)]
          dark_start_time := dark_start
          last_color_adjust_time := adj }
      else
        { s with dark_start_time := dark_start, last_color_adjust_time := adj }

/-- Fold a trace of `(brightness, now)` call inputs through the
ambient-light state machine. -/
def AmbientLightTracker.run (s : AmbientLightTracker) (trace : List (ℚ × ℚ)) :
    AmbientLightTracker :=
  trace.foldl (fun st p => st.process p.1 p.2) s

lemma process_last_known (s : AmbientLightTracker) (b now : ℚ) :
    (s.process b now).last_known_state =
      some (next_light_state (s.last_known_state.getD .light) b) := by
  unfold AmbientLightTracker.process
  cases h : s.last_known_state with
  | none => simp
  | some prev =>
      by_cases hc : next_light_state prev b = prev
      · simp [hc]
      · simp [hc]

lemma process_in_band {s : AmbientLightTracker} {st : LightState}
    (h : s.last_known_state = some st) {b : ℚ} (now : ℚ)
    (hb1 : BRIGHTNESS_THRESHOLD - 5 < b) (hb2 : b < BRIGHTNESS_THRESHOLD + 5) :
    (s.process b now).last_known_state = some st ∧
    (s.process b now).state_changes = s.state_changes ∧
    (s.process b now).data_light = s.data_light := by
  have hcur : next_light_state st b = st := by
    cases st with
    | light => exact if_pos (le_of_lt hb1)
    | dark => exact if_neg (not_le.mpr hb2)
  unfold AmbientLightTracker.process
  rw [h]
  simp [hcur]

/-- C2: Once the ambient-light tracker has settled in a state (its
`last_known_state` is set), any sequence of `process` calls whose
brightness values lie strictly inside the hysteresis band
`(THRESHOLD−5, THRESHOLD+5)` changes neither the settled state nor the
transition log nor the reported state; moreover while settled in `light`
a single call moves the state to `dark` exactly when
`brightness < THRESHOLD−5`, and while settled in `dark` it moves to
`light` exactly when `brightness ≥ THRESHOLD+5`. -/
theorem C2_light_hysteresis_band :
    (∀ s : AmbientLightTracker, ∀ st : LightState, s.last_known_state = some st →
      ∀ trace : List (ℚ × ℚ),
        (∀ p ∈ trace,
            BRIGHTNESS_THRESHOLD - 5 < p.1 ∧ p.1 < BRIGHTNESS_THRESHOLD + 5) →
        (AmbientLightTracker.run s trace).last_known_state = some st ∧
        (AmbientLightTracker.run s trace).state_changes = s.state_changes ∧
        (AmbientLightTracker.run s trace).data_light = s.data_light) ∧
    (∀ s : AmbientLightTracker, ∀ b now : ℚ, s.last_known_state = some .light →
      ((s.process b now).last_known_state = some .dark ↔
        b < BRIGHTNESS_THRESHOLD - 5)) ∧
    (∀ s : AmbientLightTracker, ∀ b now : ℚ, s.last_known_state = some .dark →
      ((s.process b now).last_known_state = some .light ↔
        BRIGHTNESS_THRESHOLD + 5 ≤ b)) := by
  refine ⟨?_, ?_, ?_⟩
  · intro s st h trace
    induction trace generalizing s with
    | nil => intro _; exact ⟨h, rfl, rfl⟩
    | cons p rest ih =>
        intro hband
        have hp := hband p (List.mem_cons_self p rest)
        obtain ⟨h1, h2, h3⟩ := process_in_band h p.2 hp.1 hp.2
        have hrest := ih _ h1 (fun q hq => hband q (List.mem_cons_of_mem p hq))
        have hrun : AmbientLightTracker.run s (p :: rest) =
            AmbientLightTracker.run (s.process p.1 p.2) rest := rfl
        rw [hrun]
        exact ⟨hrest.1, hrest.2.1.trans h2, hrest.2.2.trans h3⟩
  · intro s b now h
    rw [process_last_known, h]
    simp only [Option.getD_some, Option.some_inj]
    by_cases hc : BRIGHTNESS_THRESHOLD - 5 ≤ b
    · simp only [next_light_state, if_pos hc]
      simp [not_lt.mpr hc]
    · simp only [next_light_state, if_neg hc]
      simp [lt_of_not_le hc]
  · intro s b now h
    rw [process_last_known, h]
    simp only [Option.getD_some, Option.some_inj]
    by_cases hc : BRIGHTNESS_THRESHOLD + 5 ≤ b
    · simp only [next_light_state, if_pos hc]
      simp [hc]
    · simp only [next_light_state, if_neg hc]
      simp [hc]

/-- Witness for C2: a tracker settled in `light`, fed one in-band
brightness 90 at time 1, keeps its state and log. -/
theorem C2_light_hysteresis_band_witness :
    ((⟨.light, some 0, some .light, [(.light, 0)], none, 0⟩ :
        AmbientLightTracker).last_known_state = some .light ∧
      (∀ p ∈ [((90 : ℚ), (1 : ℚ))],
          BRIGHTNESS_THRESHOLD - 5 < p.1 ∧ p.1 < BRIGHTNESS_THRESHOLD + 5)) ∧
    ((AmbientLightTracker.run
        ⟨.light, some 0, some .light, [(.light, 0)], none, 0⟩
        [(90, 1)]).last_known_state = some .light ∧
     (AmbientLightTracker.run
        ⟨.light, some 0, some .light, [(.light, 0)], none, 0⟩
        [(90, 1)]).state_changes = [(.light, 0)] ∧
     (AmbientLightTracker.run
        ⟨.light, some 0, some .light, [(.light, 0)], none, 0⟩
        [(90, 1)]).data_light = .light) :=
  ⟨⟨rfl, by norm_num [BRIGHTNESS_THRESHOLD]⟩,
   C2_light_hysteresis_band.1 _ .light rfl [(90, 1)]
     (by norm_num [BRIGHTNESS_THRESHOLD])⟩

/-- The brightness/time trace of the C3 end-to-end scenario: brightness
values `[95, 95, 80, 80, 80]` observed at times `0, 1, 2, 3, 4`. -/
def c3_trace : List (ℚ × ℚ) := [(95, 0), (95, 1), (80, 2), (80, 3), (80, 4)]

lemma c3_step1 : AmbientLightTracker.process AmbientLightTracker.init 95 0 =
    ⟨.light, some 0, some .light, [(.light, 0)], none, 0⟩ := by
  norm_num [AmbientLightTracker.process, AmbientLightTracker.init,
    next_light_state, BRIGHTNESS_THRESHOLD, color_adjust_interval]

lemma c3_step2 : AmbientLightTracker.process
    ⟨.light, some 0, some .light, [(.light, 0)], none, 0⟩ 95 1 =
    ⟨.light, some 0, some .light, [(.light, 0)], none, 0⟩ := by
  norm_num [AmbientLightTracker.process,
    next_light_state, BRIGHTNESS_THRESHOLD, color_adjust_interval]

lemma c3_step3 : AmbientLightTracker.process
    ⟨.light, some 0, some .light, [(.light, 0)], none, 0⟩ 80 2 =
    ⟨.dark, some 2, some .dark, [(.light, 0), (.dark, 2)], some 2, 0⟩ := by
  norm_num [AmbientLightTracker.process,
    next_light_state, BRIGHTNESS_THRESHOLD, color_adjust_interval]
  decide

lemma c3_step4 : AmbientLightTracker.process
    ⟨.dark, some 2, some .dark, [(.light, 0), (.dark, 2)], some 2, 0⟩ 80 3 =
    ⟨.dark, some 2, some .dark, [(.light, 0), (.dark, 2)], some 2, 0⟩ := by
  norm_num [AmbientLightTracker.process,
    next_light_state, BRIGHTNESS_THRESHOLD, color_adjust_interval]

lemma c3_step5 : AmbientLightTracker.process
    ⟨.dark, some 2, some .dark, [(.light, 0), (.dark, 2)], some 2, 0⟩ 80 4 =
    ⟨.dark, some 2, some .dark, [(.light, 0), (.dark, 2)], some 2, 0⟩ := by
  norm_num [AmbientLightTracker.process,
    next_light_state, BRIGHTNESS_THRESHOLD, color_adjust_interval]

lemma c3_run_eq :
    AmbientLightTracker.run AmbientLightTracker.init c3_trace =
      ⟨.dark, some 2, some .dark, [(.light, 0), (.dark, 2)], some 2, 0⟩ := by
  show ((((AmbientLightTracker.init.process 95 0).process 95 1).process
      80 2).process 80 3).process 80 4 = _
  rw [c3_step1, c3_step2, c3_step3, c3_step4, c3_step5]

/-- C3 counterexample: on the scenario `[95,95,80,80,80]` from a fresh
tracker, the transition log ends with two entries — the initialization
entry appended at the first sample (lines 120-124 append on
initialization as well) and the `dark` transition at the third sample —
so the claimed "exactly one entry" is false. -/
theorem C3_light_scenario_cex :
    (AmbientLightTracker.run AmbientLightTracker.init c3_trace).state_changes.length = 2 ∧
    ¬ (AmbientLightTracker.run AmbientLightTracker.init
        c3_trace).state_changes.length = 1 := by
  rw [c3_run_eq]
  exact ⟨rfl, by simp⟩

/-- C3 amended: the scenario `[95,95,80,80,80]` with `THRESHOLD = 90`
yields the classified state sequence `[light,light,dark,dark,dark]` and
leaves exactly two entries in the transition log — an initialization
entry `(light, t₁)` recorded at the first sample and the transition
`(dark, t₃)` recorded at the third sample; after initialization, entries
are appended only on an actual state change. -/
theorem C3_light_scenario :
    ((List.scanl (fun st (p : ℚ × ℚ) => st.process p.1 p.2)
        AmbientLightTracker.init c3_trace).tail.map
          (fun st => st.data_light)) =
      [.light, .light, .dark, .dark, .dark] ∧
    (AmbientLightTracker.run AmbientLightTracker.init c3_trace).state_changes =
      [(.light, 0), (.dark, 2)] ∧
    (∀ s : AmbientLightTracker, ∀ prev : LightState, ∀ b now : ℚ,
      s.last_known_state = some prev →
      (s.process b now).state_changes = s.state_changes ∨
        (s.process b now).last_known_state ≠ some prev) := by
  refine ⟨?_, ?_, ?_⟩
  · show [ (AmbientLightTracker.init.process 95 0).data_light,
      ((AmbientLightTracker.init.process 95 0).process 95 1).data_light,
      (((AmbientLightTracker.init.process 95 0).process 95 1).process
        80 2).data_light,
      ((((AmbientLightTracker.init.process 95 0).process 95 1).process
        80 2).process 80 3).data_light,
      (((((AmbientLightTracker.init.process 95 0).process 95 1).process
        80 2).process 80 3).process 80 4).data_light] = _
    rw [c3_step1, c3_step2, c3_step3, c3_step4, c3_step5]
  · rw [c3_run_eq]
  · intro s prev b now h
    by_cases hc : next_light_state prev b = prev
    · left
      unfold AmbientLightTracker.process
      rw [h]
      simp [hc]
    · right
      rw [process_last_known, h]
      simp only [Option.getD_some, ne_eq, Option.some_inj]
      exact hc

/-- Witness for C3's general conjunct: a settled-`light` tracker
processing brightness 80 at time 1 appends a transition and indeed
changes state. -/
theorem C3_light_scenario_witness :
    ((⟨.light, some 0, some .light, [(.light, 0)], none, 0⟩ :
        AmbientLightTracker).last_known_state = some .light) ∧
    (((⟨.light, some 0, some .light, [(.light, 0)], none, 0⟩ :
        AmbientLightTracker).process 80 1).state_changes =
          [(.light, 0)] ∨
      ((⟨.light, some 0, some .light, [(.light, 0)], none, 0⟩ :
        AmbientLightTracker).process 80 1).last_known_state ≠ some .light) :=
  ⟨rfl, C3_light_scenario.2.2 _ .light 80 1 rfl⟩

/-! ## DistanceTracker (`src/Vision/trackers.py`, lines 144-200)

An entry of `self.changes` is the dict
`{"state": ..., "start_time": ..., "end_time": ...}`, modelled as a
triple. `measure` takes the frame width `iw` (from `frame.shape[:2]`),
the landmark list and the `time.time()` value of the call, and returns
the new tracker state together with the method's return value
(`distance`, `None` on failure). Python indexing `face_landmarks[469]`
raises `IndexError` when the list is shorter than 476; the `except`
clause of lines 197-199 then returns `None` with no state mutation, so
that whole path is the `(s, none)` branch. -/

inductive DistState
  | close
  | med
  | far
deriving DecidableEq, Repr

structure DistanceTracker where
  changes : List (DistState × ℚ × ℚ)
  last_known_state : Option DistState
  state_start_time : ℚ
deriving DecidableEq, Repr

def DistanceTracker.init (t0 : ℚ) : DistanceTracker :=
  { changes := []
    last_known_state := none
    state_start_time := t0 }

/-- Lines 179-184 of `DistanceTracker.measure`: Python truthiness
(`None` and `0.0` are falsy) followed by the band comparisons. -/
def classify_distance (distance : Option ℚ) : DistState :=
  match distance with
  | some d =>
      if ¬ d = 0 ∧ d < DISTANCE_CLOSE_THRESHOLD then .close
      else if ¬ d = 0 ∧ DISTANCE_CLOSE_THRESHOLD ≤ d ∧ d ≤ DISTANCE_FAR_THRESHOLD
        then .med
      else .far
  | none => .far

/-- Lines 186-196 of `DistanceTracker.measure`: initialize the state on
the first classified measurement without logging, or close the previous
interval and log it on a state change. -/
def DistanceTracker.state_update (s : DistanceTracker)
    (current_distance_state : DistState) (now : ℚ) : DistanceTracker :=
  match s.last_known_state with
  | none =>
      { s with last_known_state := some current_distance_state
               state_start_time := now }
  | some prev =>
      if current_distance_state ≠ prev then
        { changes := s.changes ++ [(prev, s.state_start_time, now)]
          last_known_state := some current_distance_state
          state_start_time := now }
      else s

/-- Lines 164-175 of `DistanceTracker.measure`: mean of the left/right
iris pixel widths, from iris landmark indices 469/470 and 474/475. -/
def avg_iris_width_px (iw : ℚ) (face_landmarks : List Landmark) : ℚ :=
  let left_iris_left := face_landmarks.getD 469 ⟨0, 0⟩
  let left_iris_right := face_landmarks.getD 470 ⟨0, 0⟩
  let left_iris_width_px := |left_iris_right.x - left_iris_left.x| * iw
  let right_iris_left := face_landmarks.getD 474 ⟨0, 0⟩
  let right_iris_right := face_landmarks.getD 475 ⟨0, 0⟩
  let right_iris_width_px := |right_iris_right.x - right_iris_left.x| * iw
  (left_iris_width_px + right_iris_width_px) / 2

/-- Lines 176-177: `distance` stays `None` unless the average iris pixel
width is positive. -/
def measured_distance (iw : ℚ) (face_landmarks : List Landmark) : Option ℚ :=
  if 0 < avg_iris_width_px iw face_landmarks then
    some ((IRIS_DIAMETER_CM * FOCAL_LENGTH) / avg_iris_width_px iw face_landmarks)
  else none

def DistanceTracker.measure (s : DistanceTracker) (iw : ℚ)
    (face_landmarks : List Landmark) (now : ℚ) : DistanceTracker × Option ℚ :=
  if ¬ face_landmarks = [] ∧ 468 ≤ face_landmarks.length then
    if 476 ≤ face_landmarks.length then
      (s.state_update ( classify_distance (measured_distance iw face_landmarks)) now,
       measured_distance iw face_landmarks)
    else (s, none)
  else (s, none)

lemma state_update_last_known (s : DistanceTracker) (c : DistState) (now : ℚ) :
    (s.state_update c now).last_known_state = some c := by
  unfold DistanceTracker.state_update
  cases h : s.last_known_state with
  | none => rfl
  | some prev =>
      by_cases hc : c = prev
      · subst hc
        simp [h]
      · simp [hc]

lemma classify_distance_pos {d : ℚ} (hd : 0 < d) :
     classify_distance (some d) =
      if d < 35 then DistState.close else if d ≤ 40 then .med else .far := by
  have hne : ¬ d = 0 := ne_of_gt hd
  show (if ¬ d = 0 ∧ d < DISTANCE_CLOSE_THRESHOLD then DistState.close
      else if ¬ d = 0 ∧ DISTANCE_CLOSE_THRESHOLD ≤ d ∧ d ≤ DISTANCE_FAR_THRESHOLD
        then DistState.med
      else DistState.far) = _
  rw [show DISTANCE_CLOSE_THRESHOLD = (35 : ℚ) from rfl,
    show DISTANCE_FAR_THRESHOLD = (40 : ℚ) from rfl]
  by_cases h1 : d < 35
  · rw [if_pos ⟨hne, h1⟩, if_pos h1]
  · by_cases h2 : d ≤ 40
    · rw [if_neg (fun h => h1 h.2), if_pos ⟨hne, le_of_not_lt h1, h2⟩,
        if_neg h1, if_pos h2]
    · rw [if_neg (fun h => h1 h.2), if_neg (fun h => h2 h.2.2),
        if_neg h1, if_neg h2]

/-- C4: Whenever `DistanceTracker.measure` returns a positive computed
distance `d`, the resulting classified state is `close` for `d < 35`,
`med` for `35 ≤ d ≤ 40` and `far` for `d > 40`; at the boundaries,
34.9 classifies as `close`, 35.0 and 40.0 as `med`, 40.1 as `far`. -/
theorem C4_distance_classification :
    (∀ s : DistanceTracker, ∀ iw now d : ℚ, ∀ lms : List Landmark,
        (s.measure iw lms now).2 = some d → 0 < d →
        (s.measure iw lms now).1.last_known_state =
          some (if d < 35 then DistState.close else if d ≤ 40 then .med
            else .far)) ∧
    classify_distance (some (349/10)) = .close ∧
    classify_distance (some 35) = .med ∧
    classify_distance (some 40) = .med ∧
    classify_distance (some (401/10)) = .far := by
  refine ⟨?_, ?_, ?_, ?_, ?_⟩
  · intro s iw now d lms hd hpos
    unfold DistanceTracker.measure at hd ⊢
    by_cases h1 : ¬ lms = [] ∧ 468 ≤ lms.length
    · rw [if_pos h1] at hd ⊢
      by_cases h2 : 476 ≤ lms.length
      · rw [if_pos h2] at hd ⊢
        have hd' : measured_distance iw lms = some d := hd
        show (s.state_update _ now).last_known_state = _
        rw [state_update_last_known, hd', classify_distance_pos hpos]
      · rw [if_neg h2] at hd
        exact absurd hd (by simp)
    · rw [if_neg h1] at hd
      exact absurd hd (by simp)
  · norm_num [ classify_distance, DISTANCE_CLOSE_THRESHOLD,
      DISTANCE_FAR_THRESHOLD]
  · norm_num [ classify_distance, DISTANCE_CLOSE_THRESHOLD,
      DISTANCE_FAR_THRESHOLD]
  · norm_num [ classify_distance, DISTANCE_CLOSE_THRESHOLD,
      DISTANCE_FAR_THRESHOLD]
  · norm_num [ classify_distance, DISTANCE_CLOSE_THRESHOLD,
      DISTANCE_FAR_THRESHOLD]

/-- A 476-landmark list whose iris landmark pairs are 0.1 apart in
normalized x, giving average iris width 10 px at frame width 100 and a
computed distance of 70.2 cm. -/
def c4_lms : List Landmark :=
  List.replicate 469 ⟨0, 0⟩ ++
    [⟨0, 0⟩, ⟨1/10, 0⟩, ⟨0, 0⟩, ⟨0, 0⟩, ⟨0, 0⟩, ⟨0, 0⟩, ⟨1/10, 0⟩]

lemma c4_lms_length : c4_lms.length = 476 := by
  rw [c4_lms, List.length_append, List.length_replicate]
  rfl

lemma c4_lms_ne_nil : ¬ c4_lms = [] := by
  intro h
  have h' := congrArg List.length h
  rw [c4_lms_length] at h'
  simp at h'

lemma c4_avg : avg_iris_width_px 100 c4_lms = 10 := by
  show (|(1/10 : ℚ) - 0| * 100 + |(1/10 : ℚ) - 0| * 100) / 2 = 10
  rw [abs_of_nonneg (by norm_num : (0 : ℚ) ≤ 1/10 - 0)]
  norm_num

lemma c4_measured : measured_distance 100 c4_lms = some (351/5) := by
  unfold measured_distance
  rw [c4_avg]
  norm_num [IRIS_DIAMETER_CM, FOCAL_LENGTH]

/-- Witness for C4 at the concrete landmark list `c4_lms` (computed
distance 70.2, classified `far`). -/
theorem C4_distance_classification_witness :
    (((DistanceTracker.init 0).measure 100 c4_lms 5).2 = some (351/5) ∧
      (0 : ℚ) < 351/5) ∧
    ((DistanceTracker.init 0).measure 100 c4_lms 5).1.last_known_state =
      some (if (351/5 : ℚ) < 35 then DistState.close
        else if (351/5 : ℚ) ≤ 40 then .med else .far) :=
  have hret : ((DistanceTracker.init 0).measure 100 c4_lms 5).2 =
      some (351/5) := by
    unfold DistanceTracker.measure
    rw [if_pos ⟨c4_lms_ne_nil, by rw [c4_lms_length]; norm_num⟩,
      if_pos (le_of_eq c4_lms_length.symm)]
    exact c4_measured
  ⟨⟨hret, by norm_num⟩,
   C4_distance_classification.1 (DistanceTracker.init 0) 100 5 (351/5) c4_lms
     hret (by norm_num)⟩

/-- A 476-landmark list in which all landmarks coincide at the origin, so
both iris pixel widths are zero. -/
def c5_lms : List Landmark := List.replicate 476 ⟨0, 0⟩

lemma c5_lms_length : c5_lms.length = 476 := by
  rw [c5_lms, List.length_replicate]

lemma c5_lms_ne_nil : ¬ c5_lms = [] := by
  intro h
  have h' := congrArg List.length h
  rw [c5_lms_length] at h'
  simp at h'

lemma c5_avg : avg_iris_width_px 100 c5_lms = 0 := by
  show (|(0 : ℚ) - 0| * 100 + |(0 : ℚ) - 0| * 100) / 2 = 0
  norm_num

/-- C5 counterexample: on the all-coincident landmark list `c5_lms`
(average iris pixel width 0), `measure` returns a null distance but the
tracker state is mutated: the `None` distance falls through the
classification chain of lines 179-184 to `"far"`, and lines 186-196 then
initialize `last_known_state` and `state_start_time`. -/
theorem C5_null_distance_cex :
    ((DistanceTracker.init 0).measure 100 c5_lms 5).2 = none ∧
    ¬ ((DistanceTracker.init 0).measure 100 c5_lms 5).1 =
      DistanceTracker.init 0 := by
  have hmd : measured_distance 100 c5_lms = none := by
    unfold measured_distance
    rw [c5_avg]
    norm_num
  have hm : (DistanceTracker.init 0).measure 100 c5_lms 5 =
      ((DistanceTracker.init 0).state_update .far 5, none) := by
    unfold DistanceTracker.measure
    rw [if_pos ⟨c5_lms_ne_nil, by rw [c5_lms_length]; norm_num⟩,
      if_pos (le_of_eq c5_lms_length.symm), hmd]
    rfl
  rw [hm]
  refine ⟨rfl, ?_⟩
  intro h
  have h' := congrArg DistanceTracker.last_known_state h
  simp [DistanceTracker.state_update, DistanceTracker.init] at h'

/-- C5 amended: a call with missing iris landmarks (fewer than 476
landmarks, covering the under-468 guard and the `IndexError` path)
returns a null distance and leaves the tracker state unchanged; but a
call with 476 or more landmarks whose average iris pixel width is zero
returns a null distance while still classifying the tick as `far` and
applying the normal state update (initializing the state or logging a
transition when `far` differs from the current state). -/
theorem C5_null_distance :
    (∀ s : DistanceTracker, ∀ iw now : ℚ, ∀ lms : List Landmark,
        lms.length < 476 → s.measure iw lms now = (s, none)) ∧
    (∀ s : DistanceTracker, ∀ iw now : ℚ, ∀ lms : List Landmark,
        476 ≤ lms.length → avg_iris_width_px iw lms = 0 →
        s.measure iw lms now = (s.state_update .far now, none)) := by
  constructor
  · intro s iw now lms hlen
    unfold DistanceTracker.measure
    by_cases h1 : ¬ lms = [] ∧ 468 ≤ lms.length
    · rw [if_pos h1, if_neg (by omega)]
    · rw [if_neg h1]
  · intro s iw now lms hlen havg
    have hmd : measured_distance iw lms = none := by
      unfold measured_distance
      rw [havg]
      norm_num
    unfold DistanceTracker.measure
    have hne : ¬ lms = [] := by
      intro h
      rw [h] at hlen
      simp at hlen
    rw [if_pos ⟨hne, by omega⟩, if_pos hlen, hmd]
    rfl

/-- Witness for C5 (amended): the short-list branch at a 10-landmark
list, and the zero-width branch at `c5_lms`. -/
theorem C5_null_distance_witness :
    ((List.replicate 10 (⟨0, 0⟩ : Landmark)).length < 476 ∧
      (DistanceTracker.init 1).measure 7 (List.replicate 10 ⟨0, 0⟩) 2 =
        (DistanceTracker.init 1, none)) ∧
    (476 ≤ c5_lms.length ∧ avg_iris_width_px 100 c5_lms = 0 ∧
      (DistanceTracker.init 1).measure 100 c5_lms 2 =
        ((DistanceTracker.init 1).state_update .far 2, none)) :=
  have hlen10 : (List.replicate 10 (⟨0, 0⟩ : Landmark)).length < 476 := by
    rw [List.length_replicate]
    norm_num
  ⟨⟨hlen10, C5_null_distance.1 (DistanceTracker.init 1) 7 2 _ hlen10⟩,
   ⟨le_of_eq c5_lms_length.symm, c5_avg,
    C5_null_distance.2 (DistanceTracker.init 1) 100 2 c5_lms
      (le_of_eq c5_lms_length.symm) c5_avg⟩⟩

/-! ## DirectionTracker (`src/Vision/trackers.py`, lines 203-315)

An entry of `self.changes` is the dict `{"away": 0|1, "timestamp": t}`,
modelled as an `ℕ × ℚ` pair. `buffer_time` (0.5 s) and the
construction-time `last_change_time` are set in `__init__`. The geometry
part of `detect` (lines 267-296) is factored out as
`detected_direction`; its `none` result covers both early
`return "unknown"` paths (fewer than 400 landmarks, line 267, and a
missing coordinate, line 281). -/

inductive Direction
  | left
  | right
  | center
  | unknown
deriving DecidableEq, Repr

/-- Python `int(q)` applied to a float: truncation toward zero. -/
def pyInt (q : ℚ) : ℤ :=
  if 0 ≤ q then ⌊q⌋ else -⌊-q⌋

/-- The nested `get_landmark_coords` of `DirectionTracker.detect`
(lines 270-275): integer pixel coordinates, `None` when the index is out
of range. -/
def get_landmark_coords (face_landmarks : List Landmark) (img_w img_h : ℤ)
    (landmark_index : ℕ) : Option (ℤ × ℤ) :=
  if landmark_index < face_landmarks.length then
    some (pyInt ((face_landmarks.getD landmark_index ⟨0, 0⟩).x * img_w),
          pyInt ((face_landmarks.getD landmark_index ⟨0, 0⟩).y * img_h))
  else none

/-- Lines 267-296 of `DirectionTracker.detect`: classify the gaze
direction from the eye-corner landmarks 33/133/362/263, or `none` for
the `"unknown"` early returns. -/
def detected_direction (face_landmarks : List Landmark) (img_w img_h : ℤ) :
    Option Direction :=
  if face_landmarks.length < 400 then none
  else
    match get_landmark_coords face_landmarks img_w img_h 33,
        get_landmark_coords face_landmarks img_w img_h 133,
        get_landmark_coords face_landmarks img_w img_h 362,
        get_landmark_coords face_landmarks img_w img_h 263 with
    | some left_eye_left, some left_eye_right,
        some right_eye_left, some right_eye_right =>
        let left_eye_center_x : ℚ :=
          ((left_eye_left.1 : ℚ) + (left_eye_right.1 : ℚ)) / 2
        let right_eye_center_x : ℚ :=
          ((right_eye_left.1 : ℚ) + (right_eye_right.1 : ℚ)) / 2
        let avg_eye_center_x : ℚ := (left_eye_center_x + right_eye_center_x) / 2
        let face_center_x : ℚ := (img_w : ℚ) / 2
        let offset_fraction : ℚ :=
          (avg_eye_center_x - face_center_x) / ((max 1 img_w : ℤ) : ℚ)
        some (if offset_fraction < -(3/100) then Direction.left
          else if 3/100 < offset_fraction then .right
          else .center)
    | _, _, _, _ => none

structure DirectionTracker where
  changes : List (ℕ × ℚ)
  last_known_direction : Option Direction
  state_start_time : ℚ
  buffer_time : ℚ
  last_change_time : ℚ
deriving DecidableEq, Repr

def DirectionTracker.init (t0 : ℚ) : DirectionTracker :=
  { changes := []
    last_known_direction := none
    state_start_time := t0
    buffer_time := 1/2
    last_change_time := t0 }

/-- Lines 298-315 of `DirectionTracker.detect`: the debounced state
machine. The first classified direction is accepted and logged
immediately (without touching `last_change_time`); a later differing
direction is accepted and logged only when
`now - last_change_time > buffer_time`. -/
def DirectionTracker.detect (s : DirectionTracker)
    (face_landmarks : List Landmark) (img_w img_h : ℤ) (now : ℚ) :
    DirectionTracker × Direction :=
  match detected_direction face_landmarks img_w img_h with
  | none => (s, .unknown)
  | some current_direction =>
      match s.last_known_direction with
      | none =>
          ({ s with
              last_known_direction := some current_direction
              changes := s.changes ++
                [(if current_direction = .center then 0 else 1, now)] },
           current_direction)
      | some prev =>
          if current_direction ≠ prev ∧
              s.buffer_time < now - s.last_change_time then
            ({ s with
                changes := s.changes ++
                  [(if current_direction = .center then 0 else 1, now)]
                last_known_direction := some current_direction
                last_change_time := now },
             current_direction)
          else (s, current_direction)

/-- 400 landmarks all at the frame centre: classified `center` at frame
size 100×100. -/
def cen_lms : List Landmark := List.replicate 400 ⟨1/2, 1/2⟩

/-- 400 landmarks all at normalized x = 0.9: classified `right` at frame
size 100×100. -/
def right_lms : List Landmark := List.replicate 400 ⟨9/10, 1/2⟩

lemma cen_lms_length : cen_lms.length = 400 := by
  rw [cen_lms, List.length_replicate]

lemma right_lms_length : right_lms.length = 400 := by
  rw [right_lms, List.length_replicate]

lemma coords_cen (i : ℕ) (hi : i < 400) :
    get_landmark_coords cen_lms 100 100 i = some (50, 50) := by
  have hlen : i < cen_lms.length := by rw [cen_lms_length]; exact hi
  unfold get_landmark_coords
  rw [if_pos hlen, List.getD_eq_getElem _ _ hlen]
  rw [show cen_lms[i] = (⟨1/2, 1/2⟩ : Landmark) from List.getElem_replicate ..]
  norm_num [pyInt]

lemma coords_right (i : ℕ) (hi : i < 400) :
    get_landmark_coords right_lms 100 100 i = some (90, 50) := by
  have hlen : i < right_lms.length := by rw [right_lms_length]; exact hi
  unfold get_landmark_coords
  rw [if_pos hlen, List.getD_eq_getElem _ _ hlen]
  rw [show right_lms[i] = (⟨9/10, 1/2⟩ : Landmark) from List.getElem_replicate ..]
  norm_num [pyInt]

lemma det_dir_cen : detected_direction cen_lms 100 100 = some .center := by
  unfold detected_direction
  rw [if_neg (by rw [cen_lms_length]; omega)]
  rw [coords_cen 33 (by omega), coords_cen 133 (by omega),
    coords_cen 362 (by omega), coords_cen 263 (by omega)]
  norm_num [max_def]

lemma det_dir_right : detected_direction right_lms 100 100 = some .right := by
  unfold detected_direction
  rw [if_neg (by rw [right_lms_length]; omega)]
  rw [coords_right 33 (by omega), coords_right 133 (by omega),
    coords_right 362 (by omega), coords_right 263 (by omega)]
  norm_num [max_def]

lemma c6_step1 : (DirectionTracker.init 0).detect cen_lms 100 100 0 =
    (⟨[(0, 0)], some .center, 0, 1/2, 0⟩, .center) := by
  unfold DirectionTracker.detect
  rw [det_dir_cen]
  rfl

lemma c6_step2 : (⟨[(0, 0)], some .center, 0, 1/2, 0⟩ :
    DirectionTracker).detect right_lms 100 100 (3/10) =
    (⟨[(0, 0)], some .center, 0, 1/2, 0⟩, .right) := by
  unfold DirectionTracker.detect
  rw [det_dir_right]
  dsimp only
  rw [if_neg (fun hcond => by norm_num at hcond)]

lemma c6_step3 : (⟨[(0, 0)], some .center, 0, 1/2, 0⟩ :
    DirectionTracker).detect right_lms 100 100 (6/10) =
    (⟨[(0, 0), (1, 6/10)], some .right, 0, 1/2, 6/10⟩, .right) := by
  unfold DirectionTracker.detect
  rw [det_dir_right]
  dsimp only
  rw [if_pos ⟨by decide, by norm_num⟩]
  rfl

/-- C6: After the first accepted direction, a call that appends to the
direction transition log must satisfy
`now − last_change_time ≥ 0.5 s` (the code requires the strict
`now − last_change_time > buffer_time`); concretely, from a tracker that
accepted `center` at time 0, a differing `right` candidate at 0.3 s is
dropped with state and log unchanged, while one at 0.6 s is recorded. -/
theorem C6_direction_debounce :
    (∀ s : DirectionTracker, ∀ lms : List Landmark, ∀ w h : ℤ, ∀ now : ℚ,
        s.buffer_time = 1/2 → ¬ s.last_known_direction = none →
        ¬ (s.detect lms w h now).1.changes = s.changes →
        1/2 ≤ now - s.last_change_time) ∧
    ((DirectionTracker.init 0).detect cen_lms 100 100 0 =
      (⟨[(0, 0)], some .center, 0, 1/2, 0⟩, .center)) ∧
    ((⟨[(0, 0)], some .center, 0, 1/2, 0⟩ : DirectionTracker).detect
        right_lms 100 100 (3/10) =
      (⟨[(0, 0)], some .center, 0, 1/2, 0⟩, .right)) ∧
    ((⟨[(0, 0)], some .center, 0, 1/2, 0⟩ : DirectionTracker).detect
        right_lms 100 100 (6/10) =
      (⟨[(0, 0), (1, 6/10)], some .right, 0, 1/2, 6/10⟩, .right)) := by
  refine ⟨?_, c6_step1, c6_step2, c6_step3⟩
  intro s lms w h now hbuf hlk hch
  by_contra hlt
  push_neg at hlt
  apply hch
  unfold DirectionTracker.detect
  cases hd : detected_direction lms w h with
  | none => rfl
  | some cd =>
      rcases Option.ne_none_iff_exists'.mp hlk with ⟨prev, hprev⟩
      simp only [hprev]
      have hcond : ¬ (cd ≠ prev ∧ s.buffer_time < now - s.last_change_time) := by
        intro hcond
        rw [hbuf] at hcond
        have := hcond.2
        linarith
      rw [if_neg hcond]

/-- Witness for C6's debounce bound at the recorded 0.6 s flip. -/
theorem C6_direction_debounce_witness :
    ((⟨[(0, 0)], some .center, 0, 1/2, 0⟩ :
        DirectionTracker).buffer_time = 1/2 ∧
      ¬ (⟨[(0, 0)], some .center, 0, 1/2, 0⟩ :
        DirectionTracker).last_known_direction = none ∧
      ¬ ((⟨[(0, 0)], some .center, 0, 1/2, 0⟩ : DirectionTracker).detect
          right_lms 100 100 (6/10)).1.changes =
        (⟨[(0, 0)], some .center, 0, 1/2, 0⟩ : DirectionTracker).changes) ∧
    (1/2 : ℚ) ≤ 6/10 -
      (⟨[(0, 0)], some .center, 0, 1/2, 0⟩ : DirectionTracker).last_change_time :=
  have hch : ¬ ((⟨[(0, 0)], some .center, 0, 1/2, 0⟩ :
      DirectionTracker).detect right_lms 100 100 (6/10)).1.changes =
      (⟨[(0, 0)], some .center, 0, 1/2, 0⟩ : DirectionTracker).changes := by
    rw [c6_step3]
    simp
  ⟨⟨rfl, by simp, hch⟩,
   C6_direction_debounce.1 _ right_lms 100 100 (6/10) rfl (by simp) hch⟩

/-! ## ZoomController (`src/Vision/trackers.py`, lines 318-345)

`hold_duration` (30 s) and `squint_required_duration` (2 s) are set to
constants in `__init__` and modelled as global constants. `apply` is
split into its two sequential blocks: the squint/zoom-in block of lines
330-338 (`zoom_in_step`) and the hold/zoom-out block of lines 340-345
(`zoom_out_step`). Each block also yields the number of
`screen_controller.scale()` resp. `screen_controller.reset()` actuator
invocations it makes (0 or 1). The several `time.time()` reads within
one call are modelled as the single call time `now`. -/

def hold_duration : ℚ := 30

def squint_required_duration : ℚ := 2

structure ZoomController where
  adjusted : Bool
  squint_start_time : Option ℚ
  squint_hold_start : Option ℚ
deriving DecidableEq, Repr

def ZoomController.init : ZoomController :=
  { adjusted := false
    squint_start_time := none
    squint_hold_start := none }

/-- Lines 330-338: start or continue the squint timer while EAR is below
the zoom-in threshold, invoking `scale()` once when the timer has held
for the required duration and no zoom is applied; reset the timer
otherwise. -/
def zoom_in_step (s : ZoomController) (ear now : ℚ) : ZoomController × ℕ :=
  if ear < EAR_ZOOM_IN_THRES then
    match s.squint_start_time with
    | none => ({ s with squint_start_time := some now }, 0)
    | some t0 =>
        if s.adjusted = false ∧ squint_required_duration ≤ now - t0 then
          ({ adjusted := true
             squint_start_time := some t0
             squint_hold_start := some now }, 1)
        else (s, 0)
  else ({ s with squint_start_time := none }, 0)

/-- Lines 340-345: while zoomed, once the hold duration has elapsed since
hold-start and EAR exceeds the zoom-out threshold, invoke `reset()` once
and return to idle. -/
def zoom_out_step (s1 : ZoomController) (ear now : ℚ) : ZoomController × ℕ :=
  if s1.adjusted = true then
    match s1.squint_hold_start with
    | some th =>
        if hold_duration ≤ now - th ∧ EAR_ZOOM_OUT_THRES < ear then
          ({ s1 with adjusted := false, squint_hold_start := none }, 1)
        else (s1, 0)
    | none => (s1, 0)
  else (s1, 0)

/-- `ZoomController.apply`: both blocks in sequence, returning the final
state and the per-call actuator invocation counts
`(scale calls, reset calls)`. -/
def ZoomController.apply (s : ZoomController) (ear now : ℚ) :
    ZoomController × ℕ × ℕ :=
  ((zoom_out_step (zoom_in_step s ear now).1 ear now).1,
   (zoom_in_step s ear now).2,
   (zoom_out_step (zoom_in_step s ear now).1 ear now).2)

/-- Fold a trace of `(ear, now)` call inputs through `apply`, summing the
actuator invocation counts. -/
def ZoomController.run : ZoomController → List (ℚ × ℚ) → ZoomController × ℕ × ℕ
  | s, [] => (s, 0, 0)
  | s, p :: rest =>
      ((ZoomController.run (s.apply p.1 p.2).1 rest).1,
       (s.apply p.1 p.2).2.1 + (ZoomController.run (s.apply p.1 p.2).1 rest).2.1,
       (s.apply p.1 p.2).2.2 + (ZoomController.run (s.apply p.1 p.2).1 rest).2.2)

lemma zoom_in_step_of_adjusted {s : ZoomController} (hadj : s.adjusted = true)
    (ear now : ℚ) :
    (zoom_in_step s ear now).1.adjusted = true ∧
    (zoom_in_step s ear now).1.squint_hold_start = s.squint_hold_start ∧
    (zoom_in_step s ear now).2 = 0 := by
  obtain ⟨a, sst, hold⟩ := s
  simp only at hadj
  subst hadj
  unfold zoom_in_step
  by_cases hlow : ear < EAR_ZOOM_IN_THRES
  · rw [if_pos hlow]
    cases sst with
    | none => exact ⟨rfl, rfl, rfl⟩
    | some t0 =>
        dsimp only
        rw [if_neg (fun hc => absurd hc.1 (by simp))]
        exact ⟨rfl, rfl, rfl⟩
  · rw [if_neg hlow]
    exact ⟨rfl, rfl, rfl⟩

lemma zoom_out_step_no_out {s1 : ZoomController} {ear : ℚ}
    (hear : ¬ EAR_ZOOM_OUT_THRES < ear) (now : ℚ) :
    zoom_out_step s1 ear now = (s1, 0) := by
  obtain ⟨a, sst, hold⟩ := s1
  unfold zoom_out_step
  cases a with
  | false => rw [if_neg (by simp)]
  | true =>
      rw [if_pos rfl]
      cases hold with
      | none => rfl
      | some th =>
          dsimp only
          rw [if_neg (fun hc => hear hc.2)]

lemma zoom_out_step_early {s1 : ZoomController} {th now : ℚ}
    (hhold : s1.squint_hold_start = some th) (hnow : now < th + hold_duration)
    (ear : ℚ) :
    zoom_out_step s1 ear now = (s1, 0) := by
  obtain ⟨a, sst, hold⟩ := s1
  simp only at hhold
  subst hhold
  unfold zoom_out_step
  cases a with
  | false => rw [if_neg (by simp)]
  | true =>
      rw [if_pos rfl]
      dsimp only
      rw [if_neg (fun hc => absurd hc.1 (not_le.mpr (by linarith)))]

lemma apply_zoomed_low (s : ZoomController) (hadj : s.adjusted = true)
    {ear : ℚ} (hear : ear ≤ EAR_ZOOM_OUT_THRES) (now : ℚ) :
    (s.apply ear now).1.adjusted = true ∧
    (s.apply ear now).1.squint_hold_start = s.squint_hold_start ∧
    (s.apply ear now).2.1 = 0 ∧ (s.apply ear now).2.2 = 0 := by
  obtain ⟨h1, h2, h3⟩ := zoom_in_step_of_adjusted hadj ear now
  unfold ZoomController.apply
  rw [zoom_out_step_no_out (not_lt.mpr hear) now]
  exact ⟨h1, h2, h3, rfl⟩

lemma run_zoomed_low (s : ZoomController) (hadj : s.adjusted = true)
    (trace : List (ℚ × ℚ)) (hl : ∀ p ∈ trace, p.1 ≤ EAR_ZOOM_OUT_THRES) :
    (s.run trace).2.1 = 0 ∧ (s.run trace).2.2 = 0 := by
  induction trace generalizing s with
  | nil => exact ⟨rfl, rfl⟩
  | cons p rest ih =>
      obtain ⟨h1, h2, h3, h4⟩ :=
        apply_zoomed_low s hadj (hl p (List.mem_cons_self p rest)) p.2
      obtain ⟨i1, i2⟩ := ih _ h1 (fun q hq => hl q (List.mem_cons_of_mem p hq))
      constructor
      · show (s.apply p.1 p.2).2.1 +
          (((s.apply p.1 p.2).1).run rest).2.1 = 0
        rw [h3, i1]
      · show (s.apply p.1 p.2).2.2 +
          (((s.apply p.1 p.2).1).run rest).2.2 = 0
        rw [h4, i2]

lemma apply_squint_fire {t0 : ℚ} (hold0 : Option ℚ) {ear now : ℚ}
    (hlow : ear < EAR_ZOOM_IN_THRES) (ht : squint_required_duration ≤ now - t0) :
    (⟨false, some t0, hold0⟩ : ZoomController).apply ear now =
      (⟨true, some t0, some now⟩, 1, 0) := by
  have hz : zoom_in_step ⟨false, some t0, hold0⟩ ear now =
      (⟨true, some t0, some now⟩, 1) := by
    unfold zoom_in_step
    rw [if_pos hlow]
    dsimp only
    rw [if_pos ⟨rfl, ht⟩]
  have hlt : now < now + hold_duration := by
    have h30 : (0 : ℚ) < hold_duration := by norm_num [hold_duration]
    linarith
  unfold ZoomController.apply
  rw [hz]
  dsimp only
  rw [zoom_out_step_early rfl hlt ear]

lemma apply_squint_wait {t0 : ℚ} (hold0 : Option ℚ) {ear now : ℚ}
    (hlow : ear < EAR_ZOOM_IN_THRES)
    (ht : ¬ squint_required_duration ≤ now - t0) :
    (⟨false, some t0, hold0⟩ : ZoomController).apply ear now =
      (⟨false, some t0, hold0⟩, 0, 0) := by
  have hz : zoom_in_step ⟨false, some t0, hold0⟩ ear now =
      (⟨false, some t0, hold0⟩, 0) := by
    unfold zoom_in_step
    rw [if_pos hlow]
    dsimp only
    rw [if_neg (fun hc => ht hc.2)]
  have hear : ¬ EAR_ZOOM_OUT_THRES < ear :=
    not_lt.mpr (le_of_lt (lt_trans hlow
      (by norm_num [EAR_ZOOM_IN_THRES, EAR_ZOOM_OUT_THRES])))
  unfold ZoomController.apply
  rw [hz]
  dsimp only
  rw [zoom_out_step_no_out hear now]

lemma run_squint (t0 : ℚ) (hold0 : Option ℚ) (trace : List (ℚ × ℚ))
    (hl : ∀ p ∈ trace, p.1 < EAR_ZOOM_IN_THRES) :
    ((⟨false, some t0, hold0⟩ : ZoomController).run trace).2.1 =
      (if trace.any (fun p => decide (squint_required_duration ≤ p.2 - t0))
        then 1 else 0) ∧
    ((⟨false, some t0, hold0⟩ : ZoomController).run trace).2.2 = 0 := by
  induction trace with
  | nil => exact ⟨rfl, rfl⟩
  | cons p rest ih =>
      have hp := hl p (List.mem_cons_self p rest)
      have hrest := fun q hq => hl q (List.mem_cons_of_mem p hq)
      by_cases ht : squint_required_duration ≤ p.2 - t0
      · have happ := apply_squint_fire hold0 hp ht
        have hlow28 : ∀ q ∈ rest, q.1 ≤ EAR_ZOOM_OUT_THRES := fun q hq =>
          le_trans (le_of_lt (hrest q hq))
            (by norm_num [EAR_ZOOM_IN_THRES, EAR_ZOOM_OUT_THRES])
        obtain ⟨hz1, hz2⟩ :=
          run_zoomed_low ⟨true, some t0, some p.2⟩ rfl rest hlow28
        constructor
        · show ((⟨false, some t0, hold0⟩ : ZoomController).apply p.1 p.2).2.1 +
            ((((⟨false, some t0, hold0⟩ : ZoomController).apply
              p.1 p.2).1).run rest).2.1 = _
          rw [happ]
          dsimp only
          rw [hz1, List.any_cons, decide_eq_true ht, Bool.true_or, if_pos rfl]
        · show ((⟨false, some t0, hold0⟩ : ZoomController).apply p.1 p.2).2.2 +
            ((((⟨false, some t0, hold0⟩ : ZoomController).apply
              p.1 p.2).1).run rest).2.2 = 0
          rw [happ]
          dsimp only
          rw [hz2]
      · have happ := apply_squint_wait hold0 hp ht
        obtain ⟨i1, i2⟩ := ih hrest
        constructor
        · show ((⟨false, some t0, hold0⟩ : ZoomController).apply p.1 p.2).2.1 +
            ((((⟨false, some t0, hold0⟩ : ZoomController).apply
              p.1 p.2).1).run rest).2.1 = _
          rw [happ]
          dsimp only
          rw [i1, List.any_cons, decide_eq_false ht, Bool.false_or, Nat.zero_add]
        · show ((⟨false, some t0, hold0⟩ : ZoomController).apply p.1 p.2).2.2 +
            ((((⟨false, some t0, hold0⟩ : ZoomController).apply
              p.1 p.2).1).run rest).2.2 = 0
          rw [happ]
          dsimp only
          rw [i2]

lemma zoom_out_step_idle (sst hold : Option ℚ) (ear now : ℚ) :
    zoom_out_step ⟨false, sst, hold⟩ ear now = (⟨false, sst, hold⟩, 0) := by
  unfold zoom_out_step
  rw [if_neg (by simp)]

lemma run_cons (s : ZoomController) (p : ℚ × ℚ) (rest : List (ℚ × ℚ)) :
    s.run (p :: rest) =
      ((((s.apply p.1 p.2).1).run rest).1,
       (s.apply p.1 p.2).2.1 + (((s.apply p.1 p.2).1).run rest).2.1,
       (s.apply p.1 p.2).2.2 + (((s.apply p.1 p.2).1).run rest).2.2) := rfl

lemma apply_init_low {ear t0 : ℚ} (hlow : ear < EAR_ZOOM_IN_THRES) :
    ZoomController.init.apply ear t0 = (⟨false, some t0, none⟩, 0, 0) := by
  have hz : zoom_in_step ZoomController.init ear t0 =
      (⟨false, some t0, none⟩, 0) := by
    unfold zoom_in_step ZoomController.init
    rw [if_pos hlow]
  unfold ZoomController.apply
  rw [hz]
  dsimp only
  rw [zoom_out_step_idle (some t0) none ear t0]

lemma apply_zoomed_still {t0 th ear now : ℚ} (hlow : ear < EAR_ZOOM_IN_THRES)
    (hear : ear ≤ EAR_ZOOM_OUT_THRES) :
    (⟨true, some t0, some th⟩ : ZoomController).apply ear now =
      (⟨true, some t0, some th⟩, 0, 0) := by
  have hz : zoom_in_step ⟨true, some t0, some th⟩ ear now =
      (⟨true, some t0, some th⟩, 0) := by
    unfold zoom_in_step
    rw [if_pos hlow]
    dsimp only
    rw [if_neg (fun hc => absurd hc.1 (by simp))]
  unfold ZoomController.apply
  rw [hz]
  dsimp only
  rw [zoom_out_step_no_out (not_lt.mpr hear) now]

lemma apply_idle_high {sst hold : Option ℚ} {ear now : ℚ}
    (hhigh : ¬ ear < EAR_ZOOM_IN_THRES) :
    (⟨false, sst, hold⟩ : ZoomController).apply ear now =
      (⟨false, none, hold⟩, 0, 0) := by
  have hz : zoom_in_step ⟨false, sst, hold⟩ ear now =
      (⟨false, none, hold⟩, 0) := by
    unfold zoom_in_step
    rw [if_neg hhigh]
  unfold ZoomController.apply
  rw [hz]
  dsimp only
  rw [zoom_out_step_idle none hold ear now]

/-- C7: From an idle controller, over any call sequence whose EAR values
stay below the zoom-in threshold, `scale()` (zoom-in) is invoked exactly
once when some call after the first occurs at least 2 s after the first
call (which started the squint timer) and zero times otherwise, and
zoom-out is never invoked; while no zoom is applied, a call with EAR at
or above the threshold resets the squint timer to unset and invokes
nothing; concretely, low EAR at times 0, 1, 2, 3 yields exactly one
zoom-in (fired at the 2.0 s mark, not re-fired at 3 s), while recovery
at 1.9 s yields zero invocations and an unset timer. -/
theorem C7_zoom_in_hold :
    (∀ t0 e0 : ℚ, ∀ rest : List (ℚ × ℚ), e0 < EAR_ZOOM_IN_THRES →
        (∀ p ∈ rest, p.1 < EAR_ZOOM_IN_THRES) →
        (ZoomController.init.run ((e0, t0) :: rest)).2.1 =
          (if rest.any (fun p => decide (squint_required_duration ≤ p.2 - t0))
            then 1 else 0) ∧
        (ZoomController.init.run ((e0, t0) :: rest)).2.2 = 0) ∧
    (∀ s : ZoomController, ∀ ear now : ℚ, s.adjusted = false →
        EAR_ZOOM_IN_THRES ≤ ear →
        (s.apply ear now).1.squint_start_time = none ∧
        (s.apply ear now).2.1 = 0 ∧ (s.apply ear now).2.2 = 0) ∧
    (ZoomController.init.run [(1/10, 0), (1/10, 1), (1/10, 2), (1/10, 3)] =
      (⟨true, some 0, some 2⟩, 1, 0)) ∧
    (ZoomController.init.run [(1/10, 0), (1/10, 1), (3/10, 19/10)] =
      (⟨false, none, none⟩, 0, 0)) := by
  have hlow110 : (1/10 : ℚ) < EAR_ZOOM_IN_THRES := by
    norm_num [EAR_ZOOM_IN_THRES]
  refine ⟨?_, ?_, ?_, ?_⟩
  · intro t0 e0 rest he0 hrest
    obtain ⟨r1, r2⟩ := run_squint t0 none rest hrest
    constructor
    · rw [run_cons]
      dsimp only
      rw [apply_init_low he0]
      dsimp only
      rw [r1, Nat.zero_add]
    · rw [run_cons]
      dsimp only
      rw [apply_init_low he0]
      dsimp only
      rw [r2]
  · intro s ear now hadj hear
    obtain ⟨a, sst, hold⟩ := s
    simp only at hadj
    subst hadj
    rw [apply_idle_high (not_lt.mpr hear)]
    exact ⟨rfl, rfl, rfl⟩
  · rw [run_cons]
    dsimp only
    rw [apply_init_low hlow110]
    dsimp only
    rw [run_cons]
    dsimp only
    rw [apply_squint_wait none hlow110 (by norm_num [squint_required_duration])]
    dsimp only
    rw [run_cons]
    dsimp only
    rw [apply_squint_fire none hlow110 (by norm_num [squint_required_duration])]
    dsimp only
    rw [run_cons]
    dsimp only
    rw [apply_zoomed_still hlow110 (by norm_num [EAR_ZOOM_OUT_THRES])]
    rfl
  · rw [run_cons]
    dsimp only
    rw [apply_init_low hlow110]
    dsimp only
    rw [run_cons]
    dsimp only
    rw [apply_squint_wait none hlow110 (by norm_num [squint_required_duration])]
    dsimp only
    rw [run_cons]
    dsimp only
    rw [apply_idle_high (by norm_num [EAR_ZOOM_IN_THRES])]
    rfl

/-- Witness for C7 at a two-call low-EAR trace firing at the 2 s mark,
and a reset call at EAR 0.3 from the idle state. -/
theorem C7_zoom_in_hold_witness :
    ((1/10 : ℚ) < EAR_ZOOM_IN_THRES ∧
      (∀ p ∈ [((1 : ℚ)/10, (2 : ℚ))], p.1 < EAR_ZOOM_IN_THRES) ∧
      ((ZoomController.init.run [(1/10, 0), (1/10, 2)]).2.1 =
        (if [((1 : ℚ)/10, (2 : ℚ))].any
            (fun p => decide (squint_required_duration ≤ p.2 - 0))
          then 1 else 0) ∧
       (ZoomController.init.run [(1/10, 0), (1/10, 2)]).2.2 = 0)) ∧
    (ZoomController.init.adjusted = false ∧ EAR_ZOOM_IN_THRES ≤ (3/10 : ℚ) ∧
      ((ZoomController.init.apply (3/10) 7).1.squint_start_time = none ∧
       (ZoomController.init.apply (3/10) 7).2.1 = 0 ∧
       (ZoomController.init.apply (3/10) 7).2.2 = 0)) :=
  have h1 : (1/10 : ℚ) < EAR_ZOOM_IN_THRES := by norm_num [EAR_ZOOM_IN_THRES]
  have h2 : ∀ p ∈ [((1 : ℚ)/10, (2 : ℚ))], p.1 < EAR_ZOOM_IN_THRES := by
    intro p hp
    simp only [List.mem_singleton] at hp
    subst hp
    exact h1
  have h3 : EAR_ZOOM_IN_THRES ≤ (3/10 : ℚ) := by norm_num [EAR_ZOOM_IN_THRES]
  ⟨⟨h1, h2, C7_zoom_in_hold.1 0 (1/10) [(1/10, 2)] h1 h2⟩,
   ⟨rfl, h3, C7_zoom_in_hold.2.1 ZoomController.init (3/10) 7 rfl h3⟩⟩

lemma apply_zoomed_early (s : ZoomController) {th : ℚ} (hadj : s.adjusted = true)
    (hhold : s.squint_hold_start = some th) (ear now : ℚ)
    (hnow : now < th + hold_duration) :
    (s.apply ear now).1.adjusted = true ∧
    (s.apply ear now).1.squint_hold_start = some th ∧
    (s.apply ear now).2.2 = 0 := by
  obtain ⟨h1, h2, h3⟩ := zoom_in_step_of_adjusted hadj ear now
  unfold ZoomController.apply
  rw [zoom_out_step_early (h2.trans hhold) hnow ear]
  exact ⟨h1, h2.trans hhold, rfl⟩

lemma run_zoomed_early (s : ZoomController) {th : ℚ} (hadj : s.adjusted = true)
    (hhold : s.squint_hold_start = some th) (trace : List (ℚ × ℚ))
    (hl : ∀ p ∈ trace, p.2 < th + hold_duration) :
    (s.run trace).2.2 = 0 := by
  induction trace generalizing s with
  | nil => rfl
  | cons p rest ih =>
      obtain ⟨h1, h2, h3⟩ := apply_zoomed_early s hadj hhold p.1 p.2
        (hl p (List.mem_cons_self p rest))
      show (s.apply p.1 p.2).2.2 + (((s.apply p.1 p.2).1).run rest).2.2 = 0
      rw [h3, ih _ h1 h2 (fun q hq => hl q (List.mem_cons_of_mem p hq))]

/-- C8: While zoomed (hold-start recorded at `th`), no call strictly
before `th + 30 s` ever invokes the zoom-out actuator, regardless of
EAR; a call at or after `th + 30 s` with EAR above the zoom-out
threshold invokes `reset()` exactly once and returns the controller to
the idle state `⟨false, none, none⟩`; and no call with EAR at or below
the zoom-out threshold ever invokes zoom-out. -/
theorem C8_zoom_out_hold :
    (∀ s : ZoomController, ∀ th : ℚ, s.adjusted = true →
        s.squint_hold_start = some th →
        ∀ trace : List (ℚ × ℚ), (∀ p ∈ trace, p.2 < th + hold_duration) →
        (s.run trace).2.2 = 0) ∧
    (∀ s : ZoomController, ∀ th ear now : ℚ, s.adjusted = true →
        s.squint_hold_start = some th → th + hold_duration ≤ now →
        EAR_ZOOM_OUT_THRES < ear →
        s.apply ear now = (⟨false, none, none⟩, 0, 1)) ∧
    (∀ s : ZoomController, ∀ ear now : ℚ, ear ≤ EAR_ZOOM_OUT_THRES →
        (s.apply ear now).2.2 = 0) := by
  refine ⟨?_, ?_, ?_⟩
  · intro s th hadj hhold trace hl
    exact run_zoomed_early s hadj hhold trace hl
  · intro s th ear now hadj hhold hdur hear
    obtain ⟨a, sst, hold⟩ := s
    simp only at hadj hhold
    subst hadj
    subst hhold
    have hlow : ¬ ear < EAR_ZOOM_IN_THRES := by
      have hio : EAR_ZOOM_IN_THRES < EAR_ZOOM_OUT_THRES := by
        norm_num [EAR_ZOOM_IN_THRES, EAR_ZOOM_OUT_THRES]
      exact not_lt.mpr (le_of_lt (lt_trans hio hear))
    have hz : zoom_in_step ⟨true, sst, some th⟩ ear now =
        (⟨true, none, some th⟩, 0) := by
      unfold zoom_in_step
      rw [if_neg hlow]
    have hout : zoom_out_step ⟨true, none, some th⟩ ear now =
        (⟨false, none, none⟩, 1) := by
      unfold zoom_out_step
      rw [if_pos rfl]
      dsimp only
      rw [if_pos ⟨by linarith, hear⟩]
    unfold ZoomController.apply
    rw [hz]
    dsimp only
    rw [hout]
  · intro s ear now hear
    unfold ZoomController.apply
    rw [zoom_out_step_no_out (not_lt.mpr hear) now]

/-- Witness for C8: a zoomed controller with hold-start 5 sees a
high-EAR call at time 10 (before the 30 s hold elapses) with no
zoom-out; at time 35 it zooms out exactly once and returns to idle; and
a low-EAR call never zooms out. -/
theorem C8_zoom_out_hold_witness :
    (((⟨true, some 0, some 5⟩ : ZoomController).adjusted = true ∧
      (⟨true, some 0, some 5⟩ : ZoomController).squint_hold_start = some 5 ∧
      (∀ p ∈ [((3 : ℚ)/10, (10 : ℚ))], p.2 < 5 + hold_duration)) ∧
      ((⟨true, some 0, some 5⟩ : ZoomController).run
        [(3/10, 10)]).2.2 = 0) ∧
    (((5 : ℚ) + hold_duration ≤ 35 ∧ EAR_ZOOM_OUT_THRES < (3/10 : ℚ)) ∧
      (⟨true, some 0, some 5⟩ : ZoomController).apply (3/10) 35 =
        (⟨false, none, none⟩, 0, 1)) ∧
    (((1/10 : ℚ) ≤ EAR_ZOOM_OUT_THRES) ∧
      (ZoomController.init.apply (1/10) 0).2.2 = 0) :=
  have ha : ∀ p ∈ [((3 : ℚ)/10, (10 : ℚ))], p.2 < 5 + hold_duration := by
    intro p hp
    simp only [List.mem_singleton] at hp
    subst hp
    norm_num [hold_duration]
  have hb : (5 : ℚ) + hold_duration ≤ 35 := by norm_num [hold_duration]
  have hc : EAR_ZOOM_OUT_THRES < (3/10 : ℚ) := by norm_num [EAR_ZOOM_OUT_THRES]
  have hd : (1/10 : ℚ) ≤ EAR_ZOOM_OUT_THRES := by norm_num [EAR_ZOOM_OUT_THRES]
  ⟨⟨⟨rfl, rfl, ha⟩,
    C8_zoom_out_hold.1 ⟨true, some 0, some 5⟩ 5 rfl rfl [(3/10, 10)] ha⟩,
   ⟨⟨hb, hc⟩, C8_zoom_out_hold.2.1 ⟨true, some 0, some 5⟩ 5 (3/10) 35 rfl rfl hb hc⟩,
   ⟨hd, C8_zoom_out_hold.2.2 ZoomController.init (1/10) 0 hd⟩⟩

/-! ## calculate_eye_aspect_ratio (`src/src/utils.py`, lines 3-33)

The EAR helper imported by `BlinkTracker.detect`. The list comprehension
of lines 18-21 filters out out-of-range indices before building the
pixel point array, so with a 6-entry `eye_points` list any out-of-range
index leaves fewer than 6 points and the later `points[5]` (or
`points[1]`) access raises `IndexError`, which the `except` clause of
lines 31-33 converts to the sentinel `0`; that exception path is the
`points.length < 6` branch. Distances are Euclidean norms
(`np.linalg.norm`), modelled with `Real.sqrt` over `ℝ`; the
zero-denominator guard `horizontal_dist > 0` of line 29 is
`0 < horizontal_dist` on the real norm. -/

/-- `np.linalg.norm (p - q)` for two pixel points. -/
noncomputable def pynorm (p q : ℚ × ℚ) : ℝ :=
  Real.sqrt (((p.1 - q.1) ^ 2 + (p.2 - q.2) ^ 2 : ℚ))

/-- The denormalized pixel coordinates of landmark `i` (line 19). -/
def pixel_point (face_landmarks : List Landmark) (img_w img_h : ℚ) (i : ℕ) :
    ℚ × ℚ :=
  ((face_landmarks.getD i ⟨0, 0⟩).x * img_w,
   (face_landmarks.getD i ⟨0, 0⟩).y * img_h)

open Classical in
noncomputable def calculate_eye_aspect_ratio (face_landmarks : List Landmark)
    (eye_points : List ℕ) (img_w img_h : ℚ) : ℝ :=
  let points := (eye_points.filter
      (fun i => decide (i < face_landmarks.length))).map
    (pixel_point face_landmarks img_w img_h)
  if 6 ≤ points.length then
    let right_vertical_dist := pynorm (points.getD 1 (0, 0)) (points.getD 5 (0, 0))
    let left_vertical_dist := pynorm (points.getD 2 (0, 0)) (points.getD 4 (0, 0))
    let horizontal_dist := pynorm (points.getD 0 (0, 0)) (points.getD 3 (0, 0))
    if 0 < horizontal_dist then
      (right_vertical_dist + left_vertical_dist) / (2 * horizontal_dist)
    else 0
  else 0

lemma length_filter_lt_of_mem {α : Type} {p : α → Bool} {l : List α} {a : α}
    (ha : a ∈ l) (hpa : p a = false) : (l.filter p).length < l.length := by
  induction l with
  | nil => cases ha
  | cons b t ih =>
      by_cases hb : p b
      · rw [List.filter_cons_of_pos hb]
        simp only [List.length_cons]
        apply Nat.succ_lt_succ
        rcases List.mem_cons.mp ha with h | h
        · subst h
          rw [hpa] at hb
          cases hb
        · exact ih h
      · rw [List.filter_cons_of_neg (by simpa using hb)]
        simp only [List.length_cons]
        exact Nat.lt_succ_of_le (List.length_filter_le p t)

lemma pynorm_nonneg (p q : ℚ × ℚ) : 0 ≤ pynorm p q :=
  Real.sqrt_nonneg _

lemma ear_points_getD {lms : List Landmark} {pts : List ℕ} (w h : ℚ)
    (h6 : pts.length = 6) (hin : ∀ i ∈ pts, i < lms.length) (k : ℕ)
    (hk : k < 6) :
    ((pts.filter (fun i => decide (i < lms.length))).map
        (pixel_point lms w h)).getD k (0, 0) =
      pixel_point lms w h (pts.getD k 0) := by
  have hfil : pts.filter (fun i => decide (i < lms.length)) = pts :=
    List.filter_eq_self.mpr (fun a ha => decide_eq_true (hin a ha))
  rw [hfil]
  have hk' : k < pts.length := by rw [h6]; exact hk
  rw [List.getD_eq_getElem _ _ (by rw [List.length_map]; exact hk'),
    List.getElem_map, List.getD_eq_getElem _ _ hk']

/-- C9: the embedded `calculate_eye_aspect_ratio` is a total function
(the `IndexError`/`except` path is the under-6-points branch); for a
6-index eye-point list it returns 0 whenever some index is out of range
of the landmark list, returns 0 when the horizontal pixel denominator
`‖p0 − p3‖` is zero, and otherwise returns
`(‖p1 − p5‖ + ‖p2 − p4‖) / (2 · ‖p0 − p3‖)` in pixel space. -/
theorem C9_ear_total (lms : List Landmark) (pts : List ℕ) (w h : ℚ)
    (h6 : pts.length = 6) :
    ((¬ ∀ i ∈ pts, i < lms.length) →
       calculate_eye_aspect_ratio lms pts w h = 0) ∧
    ((∀ i ∈ pts, i < lms.length) →
      (pynorm (pixel_point lms w h (pts.getD 0 0))
          (pixel_point lms w h (pts.getD 3 0)) = 0 →
         calculate_eye_aspect_ratio lms pts w h = 0) ∧
      (¬ pynorm (pixel_point lms w h (pts.getD 0 0))
          (pixel_point lms w h (pts.getD 3 0)) = 0 →
         calculate_eye_aspect_ratio lms pts w h =
          (pynorm (pixel_point lms w h (pts.getD 1 0))
              (pixel_point lms w h (pts.getD 5 0)) +
            pynorm (pixel_point lms w h (pts.getD 2 0))
              (pixel_point lms w h (pts.getD 4 0))) /
          (2 * pynorm (pixel_point lms w h (pts.getD 0 0))
              (pixel_point lms w h (pts.getD 3 0))))) := by
  constructor
  · intro hoor
    push_neg at hoor
    obtain ⟨a, ha, hlen⟩ := hoor
    have hlt : ((pts.filter (fun i => decide (i < lms.length))).map
        (pixel_point lms w h)).length < 6 := by
      rw [List.length_map]
      calc (pts.filter (fun i => decide (i < lms.length))).length
          < pts.length :=
            length_filter_lt_of_mem ha (decide_eq_false (not_lt.mpr hlen))
        _ = 6 := h6
    unfold calculate_eye_aspect_ratio
    rw [if_neg (not_le.mpr hlt)]
  · intro hin
    have hfil : pts.filter (fun i => decide (i < lms.length)) = pts :=
      List.filter_eq_self.mpr (fun a ha => decide_eq_true (hin a ha))
    have hlen : ((pts.filter (fun i => decide (i < lms.length))).map
        (pixel_point lms w h)).length = 6 := by
      rw [List.length_map, hfil, h6]
    have g0 := ear_points_getD w h h6 hin 0 (by omega)
    have g1 := ear_points_getD w h h6 hin 1 (by omega)
    have g2 := ear_points_getD w h h6 hin 2 (by omega)
    have g3 := ear_points_getD w h h6 hin 3 (by omega)
    have g4 := ear_points_getD w h h6 hin 4 (by omega)
    have g5 := ear_points_getD w h h6 hin 5 (by omega)
    constructor
    · intro hz
      unfold calculate_eye_aspect_ratio
      rw [if_pos (le_of_eq hlen.symm)]
      dsimp only
      rw [g0, g3, hz]
      rw [if_neg (lt_irrefl 0)]
    · intro hnz
      have hpos : 0 < pynorm (pixel_point lms w h (pts.getD 0 0))
          (pixel_point lms w h (pts.getD 3 0)) :=
        lt_of_le_of_ne (pynorm_nonneg _ _) (Ne.symm hnz)
      unfold calculate_eye_aspect_ratio
      rw [if_pos (le_of_eq hlen.symm)]
      dsimp only
      rw [g0, g1, g2, g3, g4, g5]
      rw [if_pos hpos]

/-- Six landmarks giving pixel points p0=(0,0), p1=(0,1), p2=(0,2),
p3=(1,0), p4=(0,3), p5=(0,4) at frame size 1×1. -/
def ear_lms : List Landmark :=
  [⟨0, 0⟩, ⟨0, 1⟩, ⟨0, 2⟩, ⟨1, 0⟩, ⟨0, 3⟩, ⟨0, 4⟩]

def ear_pts : List ℕ := [0, 1, 2, 3, 4, 5]

/-- Witness for C9: the out-of-range branch at a one-landmark list, and
the formula branch at `ear_lms` (horizontal denominator 1). -/
theorem C9_ear_total_witness :
    (ear_pts.length = 6) ∧
    ((¬ ∀ i ∈ ear_pts, i < ([⟨0, 0⟩] : List Landmark).length) ∧
      calculate_eye_aspect_ratio [⟨0, 0⟩] ear_pts 1 1 = 0) ∧
    ((∀ i ∈ ear_pts, i < ear_lms.length) ∧
      ¬ pynorm (pixel_point ear_lms 1 1 (ear_pts.getD 0 0))
        (pixel_point ear_lms 1 1 (ear_pts.getD 3 0)) = 0 ∧
      calculate_eye_aspect_ratio ear_lms ear_pts 1 1 =
        (pynorm (pixel_point ear_lms 1 1 (ear_pts.getD 1 0))
            (pixel_point ear_lms 1 1 (ear_pts.getD 5 0)) +
          pynorm (pixel_point ear_lms 1 1 (ear_pts.getD 2 0))
            (pixel_point ear_lms 1 1 (ear_pts.getD 4 0))) /
        (2 * pynorm (pixel_point ear_lms 1 1 (ear_pts.getD 0 0))
            (pixel_point ear_lms 1 1 (ear_pts.getD 3 0)))) :=
  have h6 : ear_pts.length = 6 := by decide
  have hoor : ¬ ∀ i ∈ ear_pts, i < ([⟨0, 0⟩] : List Landmark).length := by
    intro hall
    have := hall 1 (by decide)
    simp at this
  have hin : ∀ i ∈ ear_pts, i < ear_lms.length := by
    intro i hi
    fin_cases hi <;> decide
  have hp0 : pixel_point ear_lms 1 1 (ear_pts.getD 0 0) = (0, 0) := by
    show ((0 : ℚ) * 1, (0 : ℚ) * 1) = (0, 0)
    norm_num
  have hp3 : pixel_point ear_lms 1 1 (ear_pts.getD 3 0) = (1, 0) := by
    show ((1 : ℚ) * 1, (0 : ℚ) * 1) = (1, 0)
    norm_num
  have hone : pynorm ((0 : ℚ), (0 : ℚ)) ((1 : ℚ), (0 : ℚ)) = 1 := by
    unfold pynorm
    norm_num
  have hnz : ¬ pynorm (pixel_point ear_lms 1 1 (ear_pts.getD 0 0))
      (pixel_point ear_lms 1 1 (ear_pts.getD 3 0)) = 0 := by
    rw [hp0, hp3, hone]
    norm_num
  ⟨h6, ⟨hoor, (C9_ear_total [⟨0, 0⟩] ear_pts 1 1 h6).1 hoor⟩,
   ⟨hin, hnz, ((C9_ear_total ear_lms ear_pts 1 1 h6).2 hin).2 hnz⟩⟩

end EyeTune
